import Mathlib

/-!
Verification of the dialog lifecycle controller (`Dialog` class, src/unnamed/part_000)
of the app-tools repository.

Shallow embedding.  The JavaScript class `Dialog extends EventTarget` is modelled
as a pure state machine:

* `Surface` embeds the `<dialog>` DOM node created by `__initDialogNode`
  (lines 89-103): its custom attribute markers `opening` / `opened` / `closing` /
  `closed` (set and removed with `setAttribute` / `removeAttribute`), the native
  `open` attribute that `showModal()` sets and the native close primitive clears
  (`nativeOpen`), attachment to `document.body` (`attached`), and `returnValue`.
  Each surface carries a serial number `sid` so that distinct DOM nodes created
  by distinct `__initDialogNode` calls stay distinguishable.

* `DialogState` embeds the controller fields: `#id`, `#config`, `isOpen`,
  the `opened` / `closed` promises (as single-shot `Signal`s), the `__dialog`
  reference, plus the observable environment: `orphans` is the list of dialog
  nodes still attached to `document.body` after the controller dropped its
  reference to them (a re-entrant `open` overwrites `__dialog` at line 188
  without removing the previous node), and `events` is the log of
  `DialogStateEvent`s dispatched on the controller.

* Hooks (caller-supplied callbacks) are modelled by the only behaviour the
  lifecycle observes: absent, completing normally, or throwing/rejecting with
  an error(`HookBehavior`).  Their DOM rendering effects are out of scope
  (spec §1: content rendering is an external collaborator).

* Each operation returns an `OpResult`: the list of *observable* intermediate
  states (`snaps`: the states at each event dispatch and at each `await`
  suspension point, in order — between two of these the JS engine runs the
  method body atomically, single threaded), the final state, and the error the
  async method throws/rejects with, if any.

* `ReachableQ` is sequential reachability: states reached by running complete
  `open` / `close` calls one after another from a freshly constructed
  controller (operations are not interleaved mid-suspension).  `ReachableObs`
  additionally contains every observable intermediate snapshot of those calls.
-/

namespace AppToolsDialog

/-- Errors surfaced by the controller: `configError id` embeds
`new Error("No dialog configured for id: ...")` thrown at line 179;
`hookError e` embeds a caller-supplied hook throwing or rejecting with `e`,
re-thrown by the `catch` blocks at lines 197-200, 215-218, 133-136, 152-155. -/
inductive DErr where
  | configError (id : String)
  | hookError (e : String)
deriving Repr, DecidableEq

/-- Behaviour of one caller-supplied lifecycle hook, as observed by the
controller: not configured, completes normally, or throws/rejects with `e`.
An absent hook and a normally-completing hook are indistinguishable to the
lifecycle (the source calls them via `?.` and awaits the result either way). -/
inductive HookBehavior where
  | absent
  | ok
  | throws (e : String)
deriving Repr, DecidableEq

/-- The error a hook invocation propagates, if any. -/
def HookBehavior.thrown : HookBehavior → Option String
  | .throws e => some e
  | _ => none

/-- One entry of the constructor `config` (the `Config` typedef, lines 6-11):
up to four optional lifecycle callbacks. -/
structure HookSet where
  opening : HookBehavior := .absent
  opened : HookBehavior := .absent
  closing : HookBehavior := .absent
  closed : HookBehavior := .absent
deriving Repr, DecidableEq

/-- Lookup of the *own* entry `config[id]` of the config object literal
(the literal has unique own keys). -/
def lookupHooks : List (String × HookSet) → String → Option HookSet
  | [], _ => none
  | (k, v) :: rest, id => if k = id then some v else lookupHooks rest id

/-- Own property names of `Object.prototype`, the prototype of the
caller-supplied config object literal. -/
def objectProtoProps : List String :=
  ["constructor", "hasOwnProperty", "isPrototypeOf", "propertyIsEnumerable",
   "toLocaleString", "toString", "valueOf", "__proto__",
   "__defineGetter__", "__defineSetter__", "__lookupGetter__", "__lookupSetter__"]

/-- The `id in this.#config` membership test at line 178.  The JS `in`
operator walks the prototype chain, so besides the own keys of the config
literal it also accepts every property name inherited from
`Object.prototype` (for example `"toString"`). -/
def configMember (cfg : List (String × HookSet)) (id : String) : Bool :=
  (lookupHooks cfg id).isSome || objectProtoProps.contains id

/-- The hook set reached by the `this.#config?.[id]?.<phase>?.(...)` accesses
(lines 196, 214): for an own key the registered entry; for an id only
inherited from `Object.prototype` the access yields a function or object with
none of the four lifecycle properties, so under `?.` it behaves exactly like
the empty hook set. -/
def hooksFor (cfg : List (String × HookSet)) (id : String) : HookSet :=
  (lookupHooks cfg id).getD {}

/-- The `<dialog>` DOM node created by `__initDialogNode` (lines 89-103). -/
structure Surface where
  sid : Nat
  markerOpening : Bool := false
  markerOpened : Bool := false
  markerClosing : Bool := false
  markerClosed : Bool := false
  nativeOpen : Bool := false
  attached : Bool := false
  returnValue : String := ""
deriving Repr, DecidableEq

/-- Number of the four custom phase markers currently set on the surface. -/
def phaseCount (surf : Surface) : Nat :=
  surf.markerOpening.toNat + surf.markerOpened.toNat +
    surf.markerClosing.toNat + surf.markerClosed.toNat

/-- A single-shot promise as used for `this.opened` / `this.closed`
(lines 74-75): pending, or resolved with a dialog node (identified by `sid`). -/
inductive Signal where
  | pending
  | resolvedWith (sid : Nat)
deriving Repr, DecidableEq

/-- Calling the stored `resolve` function: resolving an already-settled
promise is a no-op, the promise keeps its first value. -/
def Signal.resolveWith : Signal → Nat → Signal
  | .pending, n => .resolvedWith n
  | .resolvedWith m, _ => .resolvedWith m

/-- Kind of a `DialogStateEvent` (line 16). -/
inductive PhaseKind where
  | opening
  | opened
  | closing
  | closed
deriving Repr, DecidableEq

/-- A `DialogStateEvent` dispatched on the controller (lines 14-27): its kind
and the `id` it carries.  (The event also carries the dialog node; the node at
dispatch time is recoverable from the snapshot state in `OpResult.snaps`.) -/
structure DialogStateEvent where
  kind : PhaseKind
  id : String
deriving Repr, DecidableEq

/-- The controller state (fields of the `Dialog` instance, lines 70-75 and
`__dialog`), together with the observable DOM environment (`orphans`) and the
log of dispatched lifecycle events (`events`).  `nextSid` is the serial number
the next created surface will get. -/
structure DialogState where
  config : List (String × HookSet)
  id : String := ""
  isOpen : Bool := false
  openedSignal : Signal := .pending
  closedSignal : Signal := .pending
  dialog : Option Surface := none
  orphans : List Surface := []
  events : List DialogStateEvent := []
  nextSid : Nat := 0
deriving Repr, DecidableEq

/-- State after `new Dialog(config)` (lines 81-84 plus field initialisers). -/
def initState (cfg : List (String × HookSet)) : DialogState := { config := cfg }

/-- All dialog nodes of this controller currently attached to `document.body`:
the referenced one (if attached) and the abandoned ones. -/
def attachedSurfaces (s : DialogState) : List Surface :=
  (match s.dialog with
   | some surf => if surf.attached then [surf] else []
   | none => []) ++ s.orphans.filter (fun surf => surf.attached)

/-- Result of running one controller operation to completion: `snaps` are the
observable intermediate states (at event dispatches and `await` suspension
points, in order), `final` is the state when the async method settles, `err`
is the error it throws/rejects with, if any. -/
structure OpResult where
  snaps : List DialogState
  final : DialogState
  err : Option DErr
deriving Repr, DecidableEq

/-- When `open` overwrites `this.__dialog` (line 188) the previously
referenced node, if still attached, stays in the document: nothing removes it. -/
def orphanOld (s : DialogState) : List Surface :=
  match s.dialog with
  | some old => if old.attached then s.orphans ++ [old] else s.orphans
  | none => s.orphans

/-- Embedding of `async open({id, parameters})` (lines 177-221), run to
completion without interleaving.  Line by line:
* 178-180: `if(!(id in this.#config)) throw ...` — the `in` membership test
  (`configMember`) walks the prototype chain, so the throw happens exactly
  for ids that are neither own keys of the config nor names inherited from
  `Object.prototype`; when it throws, nothing has been mutated;
* 181: `this.#id = id` — note this happens *before* the already-open guard,
  so the re-entrant branch below also rebinds `id`;
* 183-186: already open → log and return, nothing else mutated;
* 188-193: create the node, append it to `document.body` (orphaning a
  previously referenced node), set the `opening` marker, dispatch `opening`
  — all before the first suspension, so `s1` is the first observable state
  (it is the state during the `opening`-hook await and the `onePaint` wait);
* 195-200: a throwing `opening` hook aborts, rethrown, state left at `s1`;
* 203: `showModal()` sets the native open attribute; `s2` is the state
  observable while awaiting `animationsComplete`;
* 207-212: set `isOpen`, swap markers `opening` → `opened`, resolve the
  `opened` promise with the node, dispatch `opened`: state `s3`, observable
  during the `opened`-hook await;
* 213-218: a throwing `opened` hook aborts (so the `closed` promise is NOT
  replaced), rethrown, state left at `s3`;
* 220: replace closed by a fresh pending promise.
`parameters` is only forwarded to the hooks, whose behaviour is already
summarised by `HookBehavior`, so it does not appear in the model. -/
def openDialog (s0 : DialogState) (id : String) : OpResult :=
  if configMember s0.config id = false then ⟨[], s0, some (DErr.configError id)⟩
  else if s0.isOpen then ⟨[], { s0 with id := id }, none⟩
  else
    let surf1 : Surface := { sid := s0.nextSid, markerOpening := true, attached := true }
    let s1 : DialogState :=
      { s0 with
        id := id
        dialog := some surf1
        orphans := orphanOld s0
        nextSid := s0.nextSid + 1
        events := s0.events ++ [⟨PhaseKind.opening, id⟩] }
    match (hooksFor s0.config id).opening.thrown with
    | some e => ⟨[s1], s1, some (DErr.hookError e)⟩
    | none =>
      let surf2 : Surface := { surf1 with nativeOpen := true }
      let s2 : DialogState := { s1 with dialog := some surf2 }
      let surf3 : Surface := { surf2 with markerOpening := false, markerOpened := true }
      let s3 : DialogState :=
        { s2 with
          isOpen := true
          dialog := some surf3
          openedSignal := s2.openedSignal.resolveWith surf3.sid
          events := s2.events ++ [⟨PhaseKind.opened, id⟩] }
      match (hooksFor s0.config id).opened.thrown with
      | some e => ⟨[s1, s2, s3], s3, some (DErr.hookError e)⟩
      | none => ⟨[s1, s2, s3], { s3 with closedSignal := Signal.pending }, none⟩

/-- Embedding of `__onDialogClose` (lines 115-167), the handler for the native
`close` event, run to completion.  Line by line:
* 116-117: read `this.#id` and `this.__dialog` (the `none` branch is
  unreachable from `closeDialog` below: the handler only fires on a live,
  natively open node; the source would fault on `undefined` there);
* 125-130: swap markers `opened` → `closing`, dispatch `closing`: state `s1`,
  observable during the `closing`-hook await and the animation wait;
* 131-136: a throwing `closing` hook aborts the whole remainder, rethrown;
* 139-149: clear `isOpen`, swap markers `closing` → `closed`, resolve the
  `closed` promise with the node, dispatch `closed`: state `s2`.  `s2` is the
  state at the `closed`-hook await suspension — and therefore the state a
  caller awaiting the `closed` promise observes when it resumes: the resolve
  call queued that continuation of that caller *before* the handler reached its own
  next suspension, so the caller runs at `s2`, before lines 162-166 execute;
* 150-155: a throwing `closed` hook aborts, rethrown, state left at `s2`;
* 162-166: remove the node from the document, drop the reference, replace the
  `opened` promise with a fresh pending one, clear `#id`. -/
def onDialogClose (s : DialogState) : OpResult :=
  match s.dialog with
  | none => ⟨[], s, none⟩
  | some d =>
    let oh : Option HookSet := lookupHooks s.config s.id
    let d1 : Surface := { d with markerOpened := false, markerClosing := true }
    let s1 : DialogState :=
      { s with dialog := some d1, events := s.events ++ [⟨PhaseKind.closing, s.id⟩] }
    match (match oh with | some h => h.closing.thrown | none => none) with
    | some e => ⟨[s1], s1, some (DErr.hookError e)⟩
    | none =>
      let d2 : Surface := { d1 with markerClosing := false, markerClosed := true }
      let s2 : DialogState :=
        { s1 with
          isOpen := false
          dialog := some d2
          closedSignal := s1.closedSignal.resolveWith d2.sid
          events := s1.events ++ [⟨PhaseKind.closed, s.id⟩] }
      match (match oh with | some h => h.closed.thrown | none => none) with
      | some e => ⟨[s1, s2], s2, some (DErr.hookError e)⟩
      | none =>
        ⟨[s1, s2],
          { s2 with dialog := none, openedSignal := Signal.pending, id := "" }, none⟩

/-- Embedding of `close(kind)` (lines 111-113, default reason
`"programmatic"`): `this.__dialog?.close(kind)`.  No referenced node → no-op.
On a referenced node the native close primitive is a no-op unless the dialog
is actually open; otherwise it records `kind` as `returnValue`, clears the
native open attribute, and fires the `close` event, i.e. `__onDialogClose`.
Native dismissal (escape key) is the same primitive with its own reason. -/
def closeDialog (s : DialogState) (reason : String) : OpResult :=
  match s.dialog with
  | none => ⟨[], s, none⟩
  | some d =>
    if d.nativeOpen then
      onDialogClose { s with dialog := some { d with returnValue := reason, nativeOpen := false } }
    else ⟨[], s, none⟩

/-- The target of a `mousedown` event delivered to the listener on the surface:
its DOM node name, and whether it is the surface element itself (as opposed to
an element of the rendered content).  The surface element always has node name
`DIALOG` (it is created with `createElement("dialog")`); a content element may
have any node name, including `DIALOG`. -/
structure PointerTarget where
  nodeName : String
  isSurfaceItself : Bool
deriving Repr, DecidableEq

/-- Embedding of `__onLightDismiss` (lines 105-109): the source decides purely
on `target.nodeName === "DIALOG"` and then calls `this.close("dismiss")`. -/
def onLightDismiss (s : DialogState) (t : PointerTarget) : OpResult :=
  if t.nodeName = "DIALOG" then closeDialog s "dismiss" else ⟨[], s, none⟩

/-- Sequentially reachable quiescent states: reached from a fresh controller
by complete, non-interleaved `open` and `close` calls (light dismiss factors
through `closeDialog` with reason `"dismiss"`, so it is covered by `closeStep`). -/
inductive ReachableQ (cfg : List (String × HookSet)) : DialogState → Prop
  | init : ReachableQ cfg (initState cfg)
  | openStep (id : String) {s : DialogState} :
      ReachableQ cfg s → ReachableQ cfg (openDialog s id).final
  | closeStep (reason : String) {s : DialogState} :
      ReachableQ cfg s → ReachableQ cfg (closeDialog s reason).final

/-- Observable reachable states: quiescent states plus every observable
intermediate snapshot of an operation launched from a quiescent state. -/
def ReachableObs (cfg : List (String × HookSet)) (t : DialogState) : Prop :=
  ReachableQ cfg t ∨
    ∃ s, ReachableQ cfg s ∧
      ((∃ id, t ∈ (openDialog s id).snaps) ∨ (∃ reason, t ∈ (closeDialog s reason).snaps))

/-- Invariant on the referenced dialog node: exactly one of the four phase
markers set, and the node attached. -/
def SurfaceInv (o : Option Surface) : Prop :=
  ∀ surf, o = some surf → phaseCount surf = 1 ∧ surf.attached = true

/-- Invariant tying the native open attribute to the markers at quiescent
states: a natively open node carries exactly the `opened` marker. -/
def OpenFlagInv (o : Option Surface) : Prop :=
  ∀ surf, o = some surf → surf.nativeOpen = true →
    surf.markerOpened = true ∧ surf.markerOpening = false ∧
      surf.markerClosing = false ∧ surf.markerClosed = false

/-- Combined quiescent-state invariant. -/
def Good (s : DialogState) : Prop := SurfaceInv s.dialog ∧ OpenFlagInv s.dialog

/-! Concrete scenarios used by counterexamples and witnesses. -/

/-- A registry with a single kind `"foo"` whose hooks all complete normally. -/
def cfgOk : List (String × HookSet) := [("foo", {})]

/-- State after a completed `open({id:"foo"})` on a fresh controller. -/
def sOpenFoo : DialogState := (openDialog (initState cfgOk) "foo").final

/-- The surface referenced in `sOpenFoo`. -/
def surfOpenFoo : Surface :=
  { sid := 0, markerOpened := true, nativeOpen := true, attached := true }

/-- Result of a programmatic `close()` from `sOpenFoo`. -/
def rCloseFoo : OpResult := closeDialog sOpenFoo "programmatic"

/-- The last observable snapshot of that close: the state at the
`closed`-hook suspension, i.e. the state a caller awaiting the `closed`
promise observes when it resumes. -/
def sResumeFoo : DialogState := rCloseFoo.snaps.getLastD (initState cfgOk)

/-- A registry where kind `"a"` `opening` hook throws and kind `"b"` is fine. -/
def cfgTwoKinds : List (String × HookSet) :=
  [("a", { opening := HookBehavior.throws "boom" }), ("b", {})]

/-- State after `open({id:"a"})` rejected (opening hook threw): the `"a"`
surface is left attached with the `opening` marker, `isOpen` is still false. -/
def sAfterFailedA : DialogState := (openDialog (initState cfgTwoKinds) "a").final

/-- State after a subsequent successful `open({id:"b"})`: a second surface is
created and attached while the abandoned `"a"` surface is still attached. -/
def sTwoAttached : DialogState := (openDialog sAfterFailedA "b").final

/-- A registry with two well-behaved kinds, for the re-entrant-open claim. -/
def cfgAB : List (String × HookSet) := [("a", {}), ("b", {})]

/-- State after a completed `open({id:"a"})` over `cfgAB`. -/
def sOpenA : DialogState := (openDialog (initState cfgAB) "a").final

/-- A registry whose kind `"bar"` has a throwing `opening` hook. -/
def cfgBarFails : List (String × HookSet) :=
  [("bar", { opening := HookBehavior.throws "bar-opening-failed" })]

/-- A registry whose kind `"foo"` has a throwing `closing` hook. -/
def cfgClosingFails : List (String × HookSet) :=
  [("foo", { closing := HookBehavior.throws "closing-failed" })]

/-- State after a completed `open({id:"foo"})` over `cfgClosingFails`. -/
def sOpenClosingFails : DialogState := (openDialog (initState cfgClosingFails) "foo").final

/-- A registry whose kind `"foo"` has a throwing `opened` hook. -/
def cfgOpenedFails : List (String × HookSet) :=
  [("foo", { opened := HookBehavior.throws "opened-failed" })]

/-- A pointer-down target that is a `<dialog>` element belonging to the
rendered content, not the surface element itself. -/
def tContentDialog : PointerTarget := { nodeName := "DIALOG", isSurfaceItself := false }

/-- A pointer-down target that is the surface element itself. -/
def tSurfaceItself : PointerTarget := { nodeName := "DIALOG", isSurfaceItself := true }

/-- A pointer-down target inside the content (an ordinary element). -/
def tContentDiv : PointerTarget := { nodeName := "DIV", isSurfaceItself := false }

/-! Helper lemmas for the reachability invariant. -/

theorem surfaceInv_none : SurfaceInv none := fun _ ht => nomatch ht

theorem surfaceInv_some {surf : Surface} (h1 : phaseCount surf = 1)
    (h2 : surf.attached = true) : SurfaceInv (some surf) := by
  intro t ht
  injection ht with ht
  subst ht
  exact ⟨h1, h2⟩

theorem openFlagInv_none : OpenFlagInv none := fun _ ht => nomatch ht

theorem openFlagInv_of_not_open {surf : Surface} (h : surf.nativeOpen = false) :
    OpenFlagInv (some surf) := by
  intro t ht hno
  injection ht with ht
  subst ht
  rw [h] at hno
  exact Bool.noConfusion hno

theorem openFlagInv_opened {surf : Surface} (h1 : surf.markerOpened = true)
    (h2 : surf.markerOpening = false) (h3 : surf.markerClosing = false)
    (h4 : surf.markerClosed = false) : OpenFlagInv (some surf) := by
  intro t ht _
  injection ht with ht
  subst ht
  exact ⟨h1, h2, h3, h4⟩

theorem openDialog_final_good (s : DialogState) (id : String) (h : Good s) :
    Good (openDialog s id).final := by
  obtain ⟨h1, h2⟩ := h
  unfold openDialog
  cases hm : configMember s.config id with
  | false =>
    simp only [if_pos]
    exact ⟨h1, h2⟩
  | true =>
    simp only [Bool.true_eq_false, if_neg, not_false_iff]
    cases hio : s.isOpen with
    | true =>
      simp only [if_pos]
      exact ⟨h1, h2⟩
    | false =>
      simp only [Bool.false_eq_true, if_neg, not_false_iff]
      cases hop : (hooksFor s.config id).opening.thrown with
      | some e => exact ⟨surfaceInv_some rfl rfl, openFlagInv_of_not_open rfl⟩
      | none =>
        cases hod : (hooksFor s.config id).opened.thrown with
        | some e =>
          exact ⟨surfaceInv_some rfl rfl, openFlagInv_opened rfl rfl rfl rfl⟩
        | none =>
          exact ⟨surfaceInv_some rfl rfl, openFlagInv_opened rfl rfl rfl rfl⟩

theorem openDialog_snaps_surfaceInv (s : DialogState) (id : String) :
    ∀ t ∈ (openDialog s id).snaps, SurfaceInv t.dialog := by
  unfold openDialog
  cases hm : configMember s.config id with
  | false =>
    simp only [if_pos]
    intro t ht
    exact absurd ht (List.not_mem_nil t)
  | true =>
    simp only [Bool.true_eq_false, if_neg, not_false_iff]
    cases hio : s.isOpen with
    | true =>
      simp only [if_pos]
      intro t ht
      exact absurd ht (List.not_mem_nil t)
    | false =>
      simp only [Bool.false_eq_true, if_neg, not_false_iff]
      cases hop : (hooksFor s.config id).opening.thrown with
      | some e =>
        intro t ht
        rcases List.mem_singleton.mp ht with rfl
        exact surfaceInv_some rfl rfl
      | none =>
        cases hod : (hooksFor s.config id).opened.thrown with
        | some e =>
          intro t ht
          rcases List.mem_cons.mp ht with rfl | ht
          · exact surfaceInv_some rfl rfl
          rcases List.mem_cons.mp ht with rfl | ht
          · exact surfaceInv_some rfl rfl
          rcases List.mem_singleton.mp ht with rfl
          exact surfaceInv_some rfl rfl
        | none =>
          intro t ht
          rcases List.mem_cons.mp ht with rfl | ht
          · exact surfaceInv_some rfl rfl
          rcases List.mem_cons.mp ht with rfl | ht
          · exact surfaceInv_some rfl rfl
          rcases List.mem_singleton.mp ht with rfl
          exact surfaceInv_some rfl rfl

theorem onDialogClose_good (s : DialogState) (d : Surface) (hd : s.dialog = some d)
    (hOpg : d.markerOpening = false) (hCld : d.markerClosed = false)
    (hatt : d.attached = true) (hno : d.nativeOpen = false) :
    Good (onDialogClose s).final ∧ ∀ t ∈ (onDialogClose s).snaps, SurfaceInv t.dialog := by
  unfold onDialogClose
  rw [hd]
  dsimp only
  cases hreg : lookupHooks s.config s.id with
  | none =>
    refine ⟨⟨surfaceInv_none, openFlagInv_none⟩, ?_⟩
    intro t ht
    rcases List.mem_cons.mp ht with rfl | ht
    · exact surfaceInv_some (by simp [phaseCount, hOpg, hCld]) hatt
    rcases List.mem_singleton.mp ht with rfl
    exact surfaceInv_some (by simp [phaseCount, hOpg]) hatt
  | some hooks =>
    dsimp only
    cases hcg : hooks.closing.thrown with
    | some e =>
      refine ⟨⟨surfaceInv_some (by simp [phaseCount, hOpg, hCld]) hatt,
        openFlagInv_of_not_open hno⟩, ?_⟩
      intro t ht
      rcases List.mem_singleton.mp ht with rfl
      exact surfaceInv_some (by simp [phaseCount, hOpg, hCld]) hatt
    | none =>
      cases hcd : hooks.closed.thrown with
      | some e =>
        refine ⟨⟨surfaceInv_some (by simp [phaseCount, hOpg]) hatt,
          openFlagInv_of_not_open hno⟩, ?_⟩
        intro t ht
        rcases List.mem_cons.mp ht with rfl | ht
        · exact surfaceInv_some (by simp [phaseCount, hOpg, hCld]) hatt
        rcases List.mem_singleton.mp ht with rfl
        exact surfaceInv_some (by simp [phaseCount, hOpg]) hatt
      | none =>
        refine ⟨⟨surfaceInv_none, openFlagInv_none⟩, ?_⟩
        intro t ht
        rcases List.mem_cons.mp ht with rfl | ht
        · exact surfaceInv_some (by simp [phaseCount, hOpg, hCld]) hatt
        rcases List.mem_singleton.mp ht with rfl
        exact surfaceInv_some (by simp [phaseCount, hOpg]) hatt

theorem closeDialog_good (s : DialogState) (reason : String) (h : Good s) :
    Good (closeDialog s reason).final ∧
      ∀ t ∈ (closeDialog s reason).snaps, SurfaceInv t.dialog := by
  obtain ⟨h1, h2⟩ := h
  unfold closeDialog
  cases hd : s.dialog with
  | none =>
    dsimp only
    exact ⟨⟨h1, h2⟩, fun t ht => absurd ht (List.not_mem_nil t)⟩
  | some d =>
    dsimp only
    obtain ⟨hcount, hatt⟩ := h1 d hd
    by_cases hno : d.nativeOpen = true
    · rw [if_pos hno]
      obtain ⟨hOp, hOpg, hClg, hCld⟩ := h2 d hd hno
      exact onDialogClose_good _ { d with returnValue := reason, nativeOpen := false }
        rfl hOpg hCld hatt rfl
    · rw [if_neg hno]
      exact ⟨⟨h1, h2⟩, fun t ht => absurd ht (List.not_mem_nil t)⟩

theorem closeDialog_final_good (s : DialogState) (reason : String) (h : Good s) :
    Good (closeDialog s reason).final :=
  (closeDialog_good s reason h).1

theorem closeDialog_snaps_surfaceInv (s : DialogState) (reason : String) (h : Good s) :
    ∀ t ∈ (closeDialog s reason).snaps, SurfaceInv t.dialog :=
  (closeDialog_good s reason h).2

theorem reachableQ_good {cfg : List (String × HookSet)} {s : DialogState}
    (h : ReachableQ cfg s) : Good s := by
  induction h with
  | init => exact ⟨surfaceInv_none, openFlagInv_none⟩
  | openStep id _ ih => exact openDialog_final_good _ id ih
  | closeStep reason _ ih => exact closeDialog_final_good _ reason ih

theorem reachableObs_surfaceInv {cfg : List (String × HookSet)} {t : DialogState}
    (h : ReachableObs cfg t) : SurfaceInv t.dialog := by
  rcases h with hq | ⟨s, hs, ⟨id, hm⟩ | ⟨reason, hm⟩⟩
  · exact (reachableQ_good hq).1
  · exact openDialog_snaps_surfaceInv s id t hm
  · exact closeDialog_snaps_surfaceInv s reason (reachableQ_good hs) t hm

/-! Claim theorems. -/

/-- Counterexample to claim C3 as stated.  The guard at line 178 uses the JS
`in` operator, which walks the prototype chain of the config object literal:
`"toString"` is not a registered kind (`lookupHooks` finds no entry), yet
`open({id:"toString"})` does not throw — the inherited
`Object.prototype.toString` passes the membership test, its missing lifecycle
properties behave like an empty hook set under `?.`, and the open runs to
completion: a surface is created, attached and opened, and the kind
identifier is bound to `"toString"`. -/
theorem C3_counterexample_proto_name_opens :
    lookupHooks cfgOk "toString" = none ∧
    (openDialog (initState cfgOk) "toString").err = none ∧
    (openDialog (initState cfgOk) "toString").final.isOpen = true ∧
    (openDialog (initState cfgOk) "toString").final.dialog.isSome = true ∧
    (openDialog (initState cfgOk) "toString").final.id = "toString" := by decide

/-- Claim C3 (amended): `open({id})` fails synchronously with the
configuration error — with no surface created, no observable intermediate
step, and no controller state mutated (the whole operation result is the
unchanged state with the error; lines 178-180 throw before `this.#id = id`)
— exactly for ids that fail the `in` membership test: ids that are neither
registered kinds nor property names inherited from `Object.prototype`.  For
an unregistered id that is such an inherited name (`"toString"`, `"valueOf"`,
...), the guard passes and the open proceeds as if the kind had an empty
hook set (see the counterexample). -/
theorem C3_unregistered_id_fails_clean (s : DialogState) (id : String)
    (h : configMember s.config id = false) :
    openDialog s id = ⟨[], s, some (DErr.configError id)⟩ := by
  unfold openDialog
  rw [if_pos h]

/-- Witness for C3 (amended) at a concrete input: `"nope"` is neither a kind
of `cfgOk` nor an `Object.prototype` property name. -/
theorem C3_unregistered_id_fails_clean_witness :
    openDialog (initState cfgOk) "nope" = ⟨[], initState cfgOk, some (DErr.configError "nope")⟩ :=
  C3_unregistered_id_fails_clean (initState cfgOk) "nope" (by decide)

/-- Claim C10: for every reason string, `close(reason)` on a controller that
holds no surface is a total, safe no-op: no error, no state mutation, no
observable step (`this.__dialog?.close(kind)`, line 112, optional chaining). -/
theorem C10_close_without_surface_noop (s : DialogState) (reason : String)
    (h : s.dialog = none) : closeDialog s reason = ⟨[], s, none⟩ := by
  unfold closeDialog
  rw [h]

/-- Witness for C10 at a concrete input: a fresh controller holds no surface. -/
theorem C10_close_without_surface_noop_witness :
    closeDialog (initState cfgOk) "whatever" = ⟨[], initState cfgOk, none⟩ :=
  C10_close_without_surface_noop (initState cfgOk) "whatever" rfl

/-- Counterexample to claim C2 as stated.  With kinds `"a"` and `"b"` both
registered and `"a"` open, the re-entrant call `open({id:"b"})` does return
without error and leaves the surface untouched, but it rebinds the current
kind identifier: `this.#id = id` (line 181) executes *before* the
already-open guard (line 183), so the final state differs from the starting
state — controller state is mutated, contrary to the claim. -/
theorem C2_counterexample_rebinds_kind :
    sOpenA.isOpen = true ∧ sOpenA.id = "a" ∧
    (openDialog sOpenA "b").err = none ∧
    (openDialog sOpenA "b").final.id = "b" ∧
    (openDialog sOpenA "b").final ≠ sOpenA := by decide

/-- Claim C2 (amended): with a surface already open, calling `open` again
with any registered kind id returns without error, performs no observable
step, and leaves every part of the controller state — surface, phase marker,
signals, `isOpen`, events — unchanged *except* that the currently bound kind
identifier is set to the given id (so it is a strict no-op only when the id
equals the one already bound). -/
theorem C2_reentrant_open_only_rebinds_kind (s : DialogState) (id : String)
    (hooks : HookSet) (hreg : lookupHooks s.config id = some hooks)
    (hio : s.isOpen = true) :
    openDialog s id = ⟨[], { s with id := id }, none⟩ := by
  unfold openDialog
  rw [if_neg (by simp [configMember, hreg])]
  rw [hio]
  dsimp only
  rw [if_pos rfl]

/-- Witness for C2 (amended) at a concrete input. -/
theorem C2_reentrant_open_only_rebinds_kind_witness :
    openDialog sOpenA "b" = ⟨[], { sOpenA with id := "b" }, none⟩ :=
  C2_reentrant_open_only_rebinds_kind sOpenA "b" {} (by decide) (by decide)

/-- Claim C4: for a registered kind whose `opening` hook throws/rejects with
`e`, `open` rejects with that same `e`; no `opened` event is emitted (the
event log gains only the `opening` event), the `opened` signal is untouched,
`isOpen` stays false, and the surface remains attached, still carrying the
`opening` marker and not natively shown (lines 195-200 rethrow and abort). -/
theorem C4_opening_hook_rejection (s : DialogState) (id : String)
    (hooks : HookSet) (e : String)
    (hreg : lookupHooks s.config id = some hooks) (hio : s.isOpen = false)
    (hthrow : hooks.opening.thrown = some e) :
    (openDialog s id).err = some (DErr.hookError e) ∧
    (openDialog s id).final.isOpen = false ∧
    (openDialog s id).final.openedSignal = s.openedSignal ∧
    (openDialog s id).final.events = s.events ++ [⟨PhaseKind.opening, id⟩] ∧
    (openDialog s id).final.dialog.map Surface.attached = some true ∧
    (openDialog s id).final.dialog.map Surface.markerOpening = some true ∧
    (openDialog s id).final.dialog.map Surface.nativeOpen = some false := by
  unfold openDialog
  rw [if_neg (by simp [configMember, hreg])]
  rw [hio]
  dsimp only
  rw [if_neg (by simp)]
  have hh : hooksFor s.config id = hooks := by simp [hooksFor, hreg]
  rw [hh, hthrow]
  dsimp only
  exact ⟨rfl, rfl, rfl, rfl, rfl, rfl, rfl⟩

/-- Witness for C4 at a concrete input: kind `"bar"` of `cfgBarFails`. -/
theorem C4_opening_hook_rejection_witness :
    (openDialog (initState cfgBarFails) "bar").err
        = some (DErr.hookError "bar-opening-failed") ∧
    (openDialog (initState cfgBarFails) "bar").final.isOpen = false ∧
    (openDialog (initState cfgBarFails) "bar").final.openedSignal
        = (initState cfgBarFails).openedSignal ∧
    (openDialog (initState cfgBarFails) "bar").final.events
        = (initState cfgBarFails).events ++ [⟨PhaseKind.opening, "bar"⟩] ∧
    (openDialog (initState cfgBarFails) "bar").final.dialog.map Surface.attached
        = some true ∧
    (openDialog (initState cfgBarFails) "bar").final.dialog.map Surface.markerOpening
        = some true ∧
    (openDialog (initState cfgBarFails) "bar").final.dialog.map Surface.nativeOpen
        = some false :=
  C4_opening_hook_rejection (initState cfgBarFails) "bar"
    { opening := HookBehavior.throws "bar-opening-failed" } "bar-opening-failed"
    (by decide) rfl rfl

/-- Claim C9: for a registered kind whose `opened` hook throws/rejects with
`e`, `open` rejects with `e`, but the opened phase has fully committed first:
`isOpen` is true, the surface carries the `opened` marker and is natively
shown and attached, the `opened` signal is resolved with that surface, and
the `opened` event has been emitted; only the replacement of the `closed`
signal (line 220) is skipped, so it is left exactly as it was. -/
theorem C9_opened_hook_rejection_commits (s : DialogState) (id : String)
    (hooks : HookSet) (e : String)
    (hreg : lookupHooks s.config id = some hooks) (hio : s.isOpen = false)
    (hok : hooks.opening.thrown = none) (hthrow : hooks.opened.thrown = some e)
    (hsig : s.openedSignal = Signal.pending) :
    (openDialog s id).err = some (DErr.hookError e) ∧
    (openDialog s id).final.isOpen = true ∧
    (openDialog s id).final.dialog.map Surface.markerOpened = some true ∧
    (openDialog s id).final.dialog.map Surface.nativeOpen = some true ∧
    (openDialog s id).final.dialog.map Surface.attached = some true ∧
    (openDialog s id).final.dialog.map Surface.sid = some s.nextSid ∧
    (openDialog s id).final.openedSignal = Signal.resolvedWith s.nextSid ∧
    (openDialog s id).final.events
        = s.events ++ [⟨PhaseKind.opening, id⟩, ⟨PhaseKind.opened, id⟩] ∧
    (openDialog s id).final.closedSignal = s.closedSignal := by
  unfold openDialog
  rw [if_neg (by simp [configMember, hreg])]
  rw [hio]
  dsimp only
  rw [if_neg (by simp)]
  have hh : hooksFor s.config id = hooks := by simp [hooksFor, hreg]
  rw [hh, hok, hthrow]
  dsimp only
  rw [hsig]
  exact ⟨rfl, rfl, rfl, rfl, rfl, rfl, rfl, by simp, rfl⟩

/-- Witness for C9 at a concrete input: kind `"foo"` of `cfgOpenedFails`. -/
theorem C9_opened_hook_rejection_commits_witness :
    (openDialog (initState cfgOpenedFails) "foo").err
        = some (DErr.hookError "opened-failed") ∧
    (openDialog (initState cfgOpenedFails) "foo").final.isOpen = true ∧
    (openDialog (initState cfgOpenedFails) "foo").final.dialog.map Surface.markerOpened
        = some true ∧
    (openDialog (initState cfgOpenedFails) "foo").final.dialog.map Surface.nativeOpen
        = some true ∧
    (openDialog (initState cfgOpenedFails) "foo").final.dialog.map Surface.attached
        = some true ∧
    (openDialog (initState cfgOpenedFails) "foo").final.dialog.map Surface.sid
        = some (initState cfgOpenedFails).nextSid ∧
    (openDialog (initState cfgOpenedFails) "foo").final.openedSignal
        = Signal.resolvedWith (initState cfgOpenedFails).nextSid ∧
    (openDialog (initState cfgOpenedFails) "foo").final.events
        = (initState cfgOpenedFails).events
            ++ [⟨PhaseKind.opening, "foo"⟩, ⟨PhaseKind.opened, "foo"⟩] ∧
    (openDialog (initState cfgOpenedFails) "foo").final.closedSignal
        = (initState cfgOpenedFails).closedSignal :=
  C9_opened_hook_rejection_commits (initState cfgOpenedFails) "foo"
    { opened := HookBehavior.throws "opened-failed" } "opened-failed"
    (by decide) rfl rfl rfl rfl

/-- Claim C5: for a kind whose `closing` hook throws/rejects with `e`, the
close-notification handler re-raises `e` and skips all downstream cleanup:
the `closed` signal stays pending, no `closed` event is emitted (the log
gains only the `closing` event), the surface stays attached and referenced
(same `sid`, `closing` marker set, `returnValue` recorded), and `isOpen`
stays true (lines 131-136 rethrow before lines 137-166 can run). -/
theorem C5_closing_hook_rejection_skips_cleanup (s : DialogState) (d : Surface)
    (hooks : HookSet) (e : String) (reason : String)
    (hd : s.dialog = some d) (hno : d.nativeOpen = true)
    (hreg : lookupHooks s.config s.id = some hooks)
    (hthrow : hooks.closing.thrown = some e)
    (hio : s.isOpen = true) (hsig : s.closedSignal = Signal.pending)
    (hatt : d.attached = true) :
    (closeDialog s reason).err = some (DErr.hookError e) ∧
    (closeDialog s reason).final.isOpen = true ∧
    (closeDialog s reason).final.closedSignal = Signal.pending ∧
    (closeDialog s reason).final.events = s.events ++ [⟨PhaseKind.closing, s.id⟩] ∧
    (closeDialog s reason).final.dialog.map Surface.attached = some true ∧
    (closeDialog s reason).final.dialog.map Surface.markerClosing = some true ∧
    (closeDialog s reason).final.dialog.map Surface.sid = some d.sid ∧
    (closeDialog s reason).final.dialog.map Surface.returnValue = some reason := by
  unfold closeDialog
  rw [hd]
  dsimp only
  rw [if_pos hno]
  unfold onDialogClose
  dsimp only
  rw [hreg]
  dsimp only
  rw [hthrow]
  dsimp only
  refine ⟨rfl, hio, hsig, rfl, ?_, ?_, ?_, ?_⟩ <;> simp [hatt]

/-- Witness for C5 at a concrete input: kind `"foo"` of `cfgClosingFails`,
opened and then closed programmatically. -/
theorem C5_closing_hook_rejection_skips_cleanup_witness :
    (closeDialog sOpenClosingFails "programmatic").err
        = some (DErr.hookError "closing-failed") ∧
    (closeDialog sOpenClosingFails "programmatic").final.isOpen = true ∧
    (closeDialog sOpenClosingFails "programmatic").final.closedSignal = Signal.pending ∧
    (closeDialog sOpenClosingFails "programmatic").final.events
        = sOpenClosingFails.events ++ [⟨PhaseKind.closing, sOpenClosingFails.id⟩] ∧
    (closeDialog sOpenClosingFails "programmatic").final.dialog.map Surface.attached
        = some true ∧
    (closeDialog sOpenClosingFails "programmatic").final.dialog.map Surface.markerClosing
        = some true ∧
    (closeDialog sOpenClosingFails "programmatic").final.dialog.map Surface.sid
        = some (Surface.mk 0 false true false false true true "").sid ∧
    (closeDialog sOpenClosingFails "programmatic").final.dialog.map Surface.returnValue
        = some "programmatic" :=
  C5_closing_hook_rejection_skips_cleanup sOpenClosingFails
    (Surface.mk 0 false true false false true true "")
    { closing := HookBehavior.throws "closing-failed" } "closing-failed" "programmatic"
    (by decide) rfl (by decide) rfl (by decide) (by decide) rfl

/-- Counterexample to claim C6 as stated.  For the completed programmatic
close of the `"foo"` surface, the state at which a caller awaiting the
`closed` signal resumes (`sResumeFoo`, the `closed`-hook suspension of the handler
point: the resolve call at line 144 queued the awaiter before the handler
reached the `await` at line 151, and the detach at lines 162-163 runs only
after that suspension) still has the surface attached and referenced —
contrary to the claim that the surface is already detached and the reference
already dropped at that moment.  Detachment happens only in the final state. -/
theorem C6_counterexample_resume_attached :
    rCloseFoo.err = none ∧
    rCloseFoo.snaps.length = 2 ∧
    sResumeFoo.isOpen = false ∧
    sResumeFoo.dialog.map Surface.attached = some true ∧
    sResumeFoo.dialog.isSome = true ∧
    rCloseFoo.final.dialog = none := by decide

/-- Claim C6 (amended): for every completed close sequence, at the moment a
caller awaiting the `closed` signal resumes (the last observable snapshot of
the close, at the `closed`-hook suspension) `isOpen` is already false, the
surface carries the `closed` marker and the signal is resolved with it — but
the surface is still attached and still referenced; the detachment of the
surface and the dropping of the controller reference happen strictly
afterwards, holding in the final state of the handler. -/
theorem C6_resolution_precedes_detach (s : DialogState) (d : Surface)
    (hooks : HookSet) (reason : String)
    (hd : s.dialog = some d) (hno : d.nativeOpen = true)
    (hreg : lookupHooks s.config s.id = some hooks)
    (hcg : hooks.closing.thrown = none) (hcd : hooks.closed.thrown = none)
    (hatt : d.attached = true) :
    (closeDialog s reason).err = none ∧
    (closeDialog s reason).snaps.length = 2 ∧
    ((closeDialog s reason).snaps.getLastD s).isOpen = false ∧
    ((closeDialog s reason).snaps.getLastD s).dialog.map Surface.attached = some true ∧
    ((closeDialog s reason).snaps.getLastD s).dialog.map Surface.markerClosed = some true ∧
    ((closeDialog s reason).snaps.getLastD s).dialog.map Surface.sid = some d.sid ∧
    ((closeDialog s reason).snaps.getLastD s).closedSignal
        = s.closedSignal.resolveWith d.sid ∧
    (closeDialog s reason).final.dialog = none ∧
    (closeDialog s reason).final.isOpen = false ∧
    (closeDialog s reason).final.openedSignal = Signal.pending := by
  unfold closeDialog
  rw [hd]
  dsimp only
  rw [if_pos hno]
  unfold onDialogClose
  dsimp only
  rw [hreg]
  dsimp only
  rw [hcg]
  dsimp only
  rw [hcd]
  dsimp only
  refine ⟨rfl, rfl, ?_, ?_, ?_, ?_, ?_, rfl, rfl, rfl⟩ <;> simp [List.getLastD, hatt]

/-- Witness for C6 (amended) at a concrete input. -/
theorem C6_resolution_precedes_detach_witness :
    (closeDialog sOpenFoo "programmatic").err = none ∧
    (closeDialog sOpenFoo "programmatic").snaps.length = 2 ∧
    ((closeDialog sOpenFoo "programmatic").snaps.getLastD sOpenFoo).isOpen = false ∧
    ((closeDialog sOpenFoo "programmatic").snaps.getLastD sOpenFoo).dialog.map
        Surface.attached = some true ∧
    ((closeDialog sOpenFoo "programmatic").snaps.getLastD sOpenFoo).dialog.map
        Surface.markerClosed = some true ∧
    ((closeDialog sOpenFoo "programmatic").snaps.getLastD sOpenFoo).dialog.map
        Surface.sid = some surfOpenFoo.sid ∧
    ((closeDialog sOpenFoo "programmatic").snaps.getLastD sOpenFoo).closedSignal
        = sOpenFoo.closedSignal.resolveWith surfOpenFoo.sid ∧
    (closeDialog sOpenFoo "programmatic").final.dialog = none ∧
    (closeDialog sOpenFoo "programmatic").final.isOpen = false ∧
    (closeDialog sOpenFoo "programmatic").final.openedSignal = Signal.pending :=
  C6_resolution_precedes_detach sOpenFoo surfOpenFoo {} "programmatic"
    (by decide) rfl (by decide) rfl rfl rfl

/-- Counterexample to claim C7 as stated.  In the reachable idle-visible
state `sOpenFoo` the surface carries the `opened` marker *and* the native
open/visible marker at the same instant (in fact the native marker is present
from `showModal()` at line 203 until the native close, so it coexists first
with `opening` and then with `opened`), contradicting the claimed mutual
exclusivity of all five markers. -/
theorem C7_counterexample_native_marker_coexists :
    ReachableQ cfgOk sOpenFoo ∧
    sOpenFoo.dialog = some surfOpenFoo ∧
    surfOpenFoo.markerOpened = true ∧ surfOpenFoo.nativeOpen = true :=
  ⟨ReachableQ.openStep "foo" ReachableQ.init, by decide, rfl, rfl⟩

/-- Claim C7 (amended): at every observable instant of every lifecycle pass
(every sequentially reachable state, intermediate snapshots included), the
four phase markers `opening`, `opened`, `closing`, `closed` on the referenced
surface are mutually exclusive — at most one is present.  The native
open/visible marker is not exclusive with them: it coexists with `opening`
after show and with `opened` while visible (see the counterexample). -/
theorem C7_phase_markers_mutually_exclusive (cfg : List (String × HookSet))
    (t : DialogState) (surf : Surface)
    (h : ReachableObs cfg t) (hs : t.dialog = some surf) :
    phaseCount surf ≤ 1 :=
  (reachableObs_surfaceInv h surf hs).1.le

/-- Witness for C7 (amended) at a concrete reachable state. -/
theorem C7_phase_markers_mutually_exclusive_witness :
    phaseCount surfOpenFoo ≤ 1 :=
  C7_phase_markers_mutually_exclusive cfgOk sOpenFoo surfOpenFoo
    (Or.inl (ReachableQ.openStep "foo" ReachableQ.init)) (by decide)

/-- Counterexample to claim C1 as stated.  After `open({id:"a"})` rejects
(the `opening` hook of `"a"` throws, leaving its surface attached, `isOpen`
still false) a subsequent `open({id:"b"})` succeeds, overwriting `__dialog`
with a fresh node and appending it to `document.body` while nothing removes
the abandoned `"a"` node: in the reachable state `sTwoAttached` two surfaces
created by the one controller are attached at once — not "no surface or
exactly one live surface", and the sequence of open calls did leave two
surfaces attached simultaneously. -/
theorem C1_counterexample_two_attached :
    ReachableQ cfgTwoKinds sTwoAttached ∧
    (attachedSurfaces sTwoAttached).length = 2 :=
  ⟨ReachableQ.openStep "b" (ReachableQ.openStep "a" ReachableQ.init), by decide⟩

/-- Claim C1 (amended): in every sequentially reachable observable state the
controller *references* at most one surface (the `__dialog` field holds at
most one node by construction), and whenever it references one, that surface
is attached and is in exactly one of the lifecycle states `opening`,
`opened`, `closing`, `closed` (exactly one phase marker set).  However —
see the counterexample — a surface abandoned by a failed open can stay
attached, so the controller can leave two surfaces attached at once. -/
theorem C1_referenced_surface_exactly_one_phase (cfg : List (String × HookSet))
    (t : DialogState) (surf : Surface)
    (h : ReachableObs cfg t) (hs : t.dialog = some surf) :
    phaseCount surf = 1 ∧ surf.attached = true :=
  reachableObs_surfaceInv h surf hs

/-- Witness for C1 (amended) at a concrete reachable state. -/
theorem C1_referenced_surface_exactly_one_phase_witness :
    phaseCount surfOpenFoo = 1 ∧ surfOpenFoo.attached = true :=
  C1_referenced_surface_exactly_one_phase cfgOk sOpenFoo surfOpenFoo
    (Or.inl (ReachableQ.openStep "foo" ReachableQ.init)) (by decide)

/-- Counterexample to claim C8 as stated.  The handler decides on
`target.nodeName === "DIALOG"` (line 106), not on target identity: a
pointer-down whose target is a `<dialog>` element belonging to the rendered
*content* (`tContentDialog`, not the surface itself) also triggers the full
dismissal sequence — the surface ends up closed and detached with the
`closing`/`closed` events emitted — although the claim says pointer-down on
content never triggers a close. -/
theorem C8_counterexample_content_dialog_dismisses :
    tContentDialog.isSurfaceItself = false ∧
    (onLightDismiss sOpenFoo tContentDialog).final.isOpen = false ∧
    (onLightDismiss sOpenFoo tContentDialog).final.dialog = none ∧
    ((onLightDismiss sOpenFoo tContentDialog).snaps.headD sOpenFoo).dialog.map
        Surface.returnValue = some "dismiss" ∧
    DialogStateEvent.mk PhaseKind.closing "foo"
        ∈ (onLightDismiss sOpenFoo tContentDialog).final.events := by decide

/-- Claim C8 (amended): while a surface is open, a pointer-down event
triggers `close("dismiss")` exactly when the node name of the target is `DIALOG`:
always when the target is the surface element itself (which is a `<dialog>`
node), never for content elements with any other node name — but also for a
content element that happens to be a `<dialog>` node (see the
counterexample).  When triggered, the normal closing sequence runs with
result value `"dismiss"`; otherwise the state is completely unchanged. -/
theorem C8_light_dismiss_decided_by_node_name (s : DialogState) (d : Surface)
    (hooks : HookSet) (t : PointerTarget)
    (hd : s.dialog = some d) (hno : d.nativeOpen = true)
    (hreg : lookupHooks s.config s.id = some hooks)
    (hcg : hooks.closing.thrown = none) (hcd : hooks.closed.thrown = none)
    (hio : s.isOpen = true) :
    ((onLightDismiss s t).final.isOpen = false ↔ t.nodeName = "DIALOG") ∧
    (onLightDismiss s t).final.dialog
        = (if t.nodeName = "DIALOG" then none else some d) ∧
    ((onLightDismiss s t).snaps.headD s).dialog.map Surface.returnValue
        = (if t.nodeName = "DIALOG" then some "dismiss" else some d.returnValue) ∧
    (onLightDismiss s t).final.events
        = (if t.nodeName = "DIALOG"
            then s.events ++ [⟨PhaseKind.closing, s.id⟩, ⟨PhaseKind.closed, s.id⟩]
            else s.events) := by
  unfold onLightDismiss
  by_cases hn : t.nodeName = "DIALOG"
  · simp only [if_pos hn]
    unfold closeDialog
    rw [hd]
    dsimp only
    rw [if_pos hno]
    unfold onDialogClose
    dsimp only
    rw [hreg]
    dsimp only
    rw [hcg]
    dsimp only
    rw [hcd]
    dsimp only
    refine ⟨?_, ?_, ?_, ?_⟩ <;> simp [hn]
  · simp only [if_neg hn]
    refine ⟨?_, ?_, ?_, ?_⟩ <;> simp [hio, hd, hn]

/-- Witness for C8 (amended) at a concrete input: the surface element itself
as target while `"foo"` is open. -/
theorem C8_light_dismiss_decided_by_node_name_witness :
    ((onLightDismiss sOpenFoo tSurfaceItself).final.isOpen = false
        ↔ tSurfaceItself.nodeName = "DIALOG") ∧
    (onLightDismiss sOpenFoo tSurfaceItself).final.dialog
        = (if tSurfaceItself.nodeName = "DIALOG" then none else some surfOpenFoo) ∧
    ((onLightDismiss sOpenFoo tSurfaceItself).snaps.headD sOpenFoo).dialog.map
        Surface.returnValue
        = (if tSurfaceItself.nodeName = "DIALOG"
            then some "dismiss" else some surfOpenFoo.returnValue) ∧
    (onLightDismiss sOpenFoo tSurfaceItself).final.events
        = (if tSurfaceItself.nodeName = "DIALOG"
            then sOpenFoo.events
              ++ [⟨PhaseKind.closing, sOpenFoo.id⟩, ⟨PhaseKind.closed, sOpenFoo.id⟩]
            else sOpenFoo.events) :=
  C8_light_dismiss_decided_by_node_name sOpenFoo surfOpenFoo {} tSurfaceItself
    (by decide) rfl (by decide) rfl rfl (by decide)

end AppToolsDialog
